import Mathlib

/-!
Verification of the OMOTES SDK job-lifecycle and workflow-parameter model.

This file gives a shallow embedding, in Lean 4, of the Python modules
`omotes_sdk/workflow_type.py`, `omotes_sdk/omotes_interface.py` and
`omotes_sdk/queue_names.py`, and proves or refutes the frozen claims about
them.

Modelling conventions:
- Python runtime values that can flow through parameter dictionaries and
  protobuf `Struct`s are modelled by the inductive `PyValue`.  Python floats
  are modelled by exact rationals (`Rat`); `datetime` values are modelled by
  their POSIX timestamp as a rational.
- Python exceptions are modelled by `PyErr`; a fallible Python function
  becomes `Except PyErr _`.
- Python dictionaries are modelled by association lists with unique keys;
  `pyDictGet` is `dict.get` and `dictSet` is `dict.__setitem__`.
- Logging calls have no effect on control flow or results and are not
  modelled.
-/

/-- Model of the Python runtime values handled by the parameter model
(`ParamsDictValues` / `PBStructCompatibleTypes` plus raw json values). -/
inductive PyValue where
  | vNone : PyValue
  | vBool (b : Bool) : PyValue
  | vInt (n : Int) : PyValue
  | vFloat (q : Rat) : PyValue
  | vStr (s : String) : PyValue
  | vDatetime (ts : Rat) : PyValue
  | vList (xs : List PyValue) : PyValue
  | vDict (xs : List (String × PyValue)) : PyValue

/-- Model of the Python exceptions raised by the embedded code. -/
inductive PyErr where
  | typeError (msg : String) : PyErr
  | wrongFieldType (msg : String) : PyErr
  | missingField (msg : String) : PyErr
  | attributeError (msg : String) : PyErr
  | runtimeError (msg : String) : PyErr
  | valueError (msg : String) : PyErr

def PyErr.isWrongFieldType : PyErr → Bool
  | .wrongFieldType _ => true
  | _ => false

def PyErr.isMissingField : PyErr → Bool
  | .missingField _ => true
  | _ => false

def PyErr.isTypeError : PyErr → Bool
  | .typeError _ => true
  | _ => false

def PyErr.isAttributeError : PyErr → Bool
  | .attributeError _ => true
  | _ => false

/-- Did the computation raise a `WrongFieldTypeException`? -/
def Except.raisedWrongFieldType : Except PyErr α → Bool
  | .error e => e.isWrongFieldType
  | .ok _ => false

/-- Did the computation raise a `MissingFieldException`? -/
def Except.raisedMissingField : Except PyErr α → Bool
  | .error e => e.isMissingField
  | .ok _ => false

/-- Did the computation raise a `TypeError`? -/
def Except.raisedTypeError : Except PyErr α → Bool
  | .error e => e.isTypeError
  | .ok _ => false

/-- Did the computation raise an `AttributeError`? -/
def Except.raisedAttributeError : Except PyErr α → Bool
  | .error e => e.isAttributeError
  | .ok _ => false

/-- Python `isinstance(v, str)`. -/
def isInstStr : PyValue → Bool
  | .vStr _ => true
  | _ => false

/-- Python `isinstance(v, bool)`. -/
def isInstBool : PyValue → Bool
  | .vBool _ => true
  | _ => false

/-- Python `isinstance(v, int)`; `bool` is a subclass of `int` in Python. -/
def isInstInt : PyValue → Bool
  | .vInt _ => true
  | .vBool _ => true
  | _ => false

/-- Python `isinstance(v, float)`. -/
def isInstFloat : PyValue → Bool
  | .vFloat _ => true
  | _ => false

/-- Python `isinstance(v, datetime)`. -/
def isInstDatetime : PyValue → Bool
  | .vDatetime _ => true
  | _ => false

/-- Python `isinstance(v, List)`. -/
def isInstList : PyValue → Bool
  | .vList _ => true
  | _ => false

/-- Python `type(v)` as interpolated into f-strings. -/
def pyTypeName : PyValue → String
  | .vNone => "<class \x27NoneType\x27>"
  | .vBool _ => "<class \x27bool\x27>"
  | .vInt _ => "<class \x27int\x27>"
  | .vFloat _ => "<class \x27float\x27>"
  | .vStr _ => "<class \x27str\x27>"
  | .vDatetime _ => "<class \x27datetime.datetime\x27>"
  | .vList _ => "<class \x27list\x27>"
  | .vDict _ => "<class \x27dict\x27>"

/-- Decimal digits of the fractional part `r / den`, with fuel.  Python
floats are dyadic rationals, so their decimal expansion terminates. -/
def fracDigits : Nat → Nat → Nat → String
  | 0, _, _ => ""
  | _, 0, _ => ""
  | fuel + 1, r, den =>
    let r10 := r * 10
    toString (r10 / den) ++ fracDigits fuel (r10 % den) den

/-- Python `str` on a float value (terminating decimal expansion). -/
def pyStrFloat (q : Rat) : String :=
  let sign := if q.num < 0 then "-" else ""
  let n := q.num.natAbs
  let whole := n / q.den
  let rem := n % q.den
  let frac := if rem = 0 then "0" else fracDigits 64 rem q.den
  sign ++ toString whole ++ "." ++ frac

/-- Python `str(v)` as interpolated into f-strings. -/
def pyStrValue : PyValue → String
  | .vNone => "None"
  | .vBool b => if b then "True" else "False"
  | .vInt n => toString n
  | .vFloat q => pyStrFloat q
  | .vStr s => s
  | .vDatetime ts => "datetime.datetime(" ++ pyStrFloat ts ++ ")"
  | .vList _ => "[...]"
  | .vDict _ => "\x7b...\x7d"

/-- Python `dict.get k` (returns `None`, modelled `none`, when absent). -/
def pyDictGet (d : List (String × α)) (k : String) : Option α :=
  (d.find? (fun p => p.1 == k)).map (·.2)

/-- Python `k in dict`. -/
def pyDictContains (d : List (String × α)) (k : String) : Bool :=
  d.any (fun p => p.1 == k)

/-- Python `dict[k] = v`: replace in place when the key exists, else append
(insertion order is preserved, as in CPython dicts). -/
def dictSet (d : List (String × α)) (k : String) (v : α) : List (String × α) :=
  if d.any (fun p => p.1 == k) then
    d.map (fun p => if p.1 == k then (k, v) else p)
  else
    d ++ [(k, v)]

/-- Python `dict.pop k` (the removal part; the popped value is read
separately). -/
def dictPop (d : List (String × α)) (k : String) : List (String × α) :=
  d.filter (fun p => p.1 != k)

/-- Python `round` on a float: nearest integer, ties to even.  Computed on
the numerator and denominator: with floor `f` and fractional part
`(q.num - f * q.den) / q.den`, compare twice the fractional numerator with
the denominator. -/
def roundHalfEven (q : Rat) : Int :=
  let f := q.num.fdiv q.den
  let rem2 := 2 * (q.num - f * q.den)
  if rem2 < (q.den : Int) then f
  else if (q.den : Int) < rem2 then f + 1
  else if f % 2 = 0 then f else f + 1

/-- `StringEnumOption` dataclass: a `(key_name, display_name)` pair. -/
structure StringEnumOption where
  key_name : String
  display_name : String
deriving DecidableEq

/-- The closed union of the five `WorkflowParameter` subclasses of
`workflow_type.py` (`StringParameter`, `BooleanParameter`,
`IntegerParameter`, `FloatParameter`, `DateTimeParameter`), each carrying
the base fields `key_name`, `title`, `description` and its variant-specific
fields.  `datetime` defaults are modelled by their timestamps. -/
inductive WorkflowParameter where
  | stringParam (key_name : String) (title description : Option String)
      (default : Option String) (enum_options : Option (List StringEnumOption))
  | booleanParam (key_name : String) (title description : Option String)
      (default : Option Bool)
  | integerParam (key_name : String) (title description : Option String)
      (default minimum maximum : Option Int)
  | floatParam (key_name : String) (title description : Option String)
      (default minimum maximum : Option Rat)
  | datetimeParam (key_name : String) (title description : Option String)
      (default : Option Rat)

def WorkflowParameter.key_name : WorkflowParameter → String
  | .stringParam k _ _ _ _ => k
  | .booleanParam k _ _ _ => k
  | .integerParam k _ _ _ _ _ => k
  | .floatParam k _ _ _ _ _ => k
  | .datetimeParam k _ _ _ => k

def WorkflowParameter.title : WorkflowParameter → Option String
  | .stringParam _ t _ _ _ => t
  | .booleanParam _ t _ _ => t
  | .integerParam _ t _ _ _ _ => t
  | .floatParam _ t _ _ _ _ => t
  | .datetimeParam _ t _ _ => t

def WorkflowParameter.description : WorkflowParameter → Option String
  | .stringParam _ _ d _ _ => d
  | .booleanParam _ _ d _ => d
  | .integerParam _ _ d _ _ _ => d
  | .floatParam _ _ d _ _ _ => d
  | .datetimeParam _ _ d _ => d

/-- Python class name of the parameter, as used in error messages. -/
def WorkflowParameter.className : WorkflowParameter → String
  | .stringParam _ _ _ _ _ => "StringParameter"
  | .booleanParam _ _ _ _ => "BooleanParameter"
  | .integerParam _ _ _ _ _ _ => "IntegerParameter"
  | .floatParam _ _ _ _ _ _ => "FloatParameter"
  | .datetimeParam _ _ _ _ => "DateTimeParameter"

/-- The dataclass `__eq__` generated for the `WorkflowParameter` hierarchy:
two instances are equal iff they are of the same class and agree on the
fields declared with `compare=True`, which are `key_name`, `title`,
`description` (and the per-class constant `type_name`).  The variant fields
`default`, `enum_options`, `minimum`, `maximum` are declared with
`compare=False` and are not compared. -/
def WorkflowParameter.pyEq : WorkflowParameter → WorkflowParameter → Bool
  | .stringParam k1 t1 d1 _ _, .stringParam k2 t2 d2 _ _ =>
    k1 == k2 && t1 == t2 && d1 == d2
  | .booleanParam k1 t1 d1 _, .booleanParam k2 t2 d2 _ =>
    k1 == k2 && t1 == t2 && d1 == d2
  | .integerParam k1 t1 d1 _ _ _, .integerParam k2 t2 d2 _ _ _ =>
    k1 == k2 && t1 == t2 && d1 == d2
  | .floatParam k1 t1 d1 _ _ _, .floatParam k2 t2 d2 _ _ _ =>
    k1 == k2 && t1 == t2 && d1 == d2
  | .datetimeParam k1 t1 d1 _, .datetimeParam k2 t2 d2 _ =>
    k1 == k2 && t1 == t2 && d1 == d2
  | _, _ => false

/-- `WorkflowType` dataclass. -/
structure WorkflowType where
  workflow_type_name : String
  workflow_type_description_name : String
  workflow_parameters : Option (List WorkflowParameter) := none

/-- The dataclass `__eq__` of `WorkflowType`: only `workflow_type_name` is
declared with `compare=True`; the description and the parameter list are
`compare=False`. -/
def WorkflowType.pyEq (a b : WorkflowType) : Bool :=
  a.workflow_type_name == b.workflow_type_name

/-- The tuple of fields feeding the generated dataclass `__hash__` of
`WorkflowType` (only `workflow_type_name` is declared with `hash=True`).
Equal field tuples give equal Python hashes. -/
def WorkflowType.hashFields (a : WorkflowType) : String :=
  a.workflow_type_name

/-! ## Runtime-value / wire-value conversion (`from_pb_value` / `to_pb_value`) -/

/-- `StringParameter.from_pb_value`. -/
def StringParameter.from_pb_value (value : PyValue) : Except PyErr PyValue :=
  if isInstStr value then .ok value
  else
    .error (.wrongFieldType
      ("Cannot convert value \"" ++ pyStrValue value ++ "\" from a PB value as the type is "
        ++ pyTypeName value ++ " while a string was expected."))

/-- `StringParameter.to_pb_value`. -/
def StringParameter.to_pb_value (value : PyValue) : Except PyErr PyValue :=
  if isInstStr value then .ok value
  else
    .error (.wrongFieldType
      ("Cannot convert value \"" ++ pyStrValue value ++ "\" to a PB-compatible value as the type is "
        ++ pyTypeName value ++ " while a string was expected."))

/-- `BooleanParameter.from_pb_value`. -/
def BooleanParameter.from_pb_value (value : PyValue) : Except PyErr PyValue :=
  if isInstBool value then .ok value
  else
    .error (.wrongFieldType
      ("Cannot convert value \"" ++ pyStrValue value ++ "\" from a PB value as the type is "
        ++ pyTypeName value ++ " while a bool was expected."))

/-- `BooleanParameter.to_pb_value`. -/
def BooleanParameter.to_pb_value (value : PyValue) : Except PyErr PyValue :=
  if isInstBool value then .ok value
  else
    .error (.wrongFieldType
      ("Cannot convert value \"" ++ pyStrValue value ++ "\" to a PB-compatible value as the type is "
        ++ pyTypeName value ++ " while a bool was expected."))

/-- The message of `IntegerParameter.from_pb_value` on a non-numeric value. -/
def integerFromPbValueErrMsg (value : PyValue) : String :=
  "Cannot convert value \"" ++ pyStrValue value ++ "\" from a PB-compatible int value as the type is "
    ++ pyTypeName value ++ " while an int or float was expected."

/-- `IntegerParameter.from_pb_value`: a float is rounded (Python `round`,
with a logged warning when lossy); an int is returned unchanged (a `bool`
is an `int` instance in Python and is also returned unchanged); anything
else raises `WrongFieldTypeException`. -/
def IntegerParameter.from_pb_value (value : PyValue) : Except PyErr PyValue :=
  match value with
  | .vFloat q => .ok (.vInt (roundHalfEven q))
  | .vInt n => .ok (.vInt n)
  | .vBool b => .ok (.vBool b)
  | v => .error (.wrongFieldType (integerFromPbValueErrMsg v))

/-- `IntegerParameter.to_pb_value`: `float(value)` on an int instance
(Python `bool` included, `float(True) = 1.0`). -/
def IntegerParameter.to_pb_value (value : PyValue) : Except PyErr PyValue :=
  match value with
  | .vInt n => .ok (.vFloat n)
  | .vBool b => .ok (.vFloat (if b then 1 else 0))
  | v =>
    .error (.wrongFieldType
      ("Cannot convert value \"" ++ pyStrValue v ++ "\" to a PB-compatible value as the type is "
        ++ pyTypeName v ++ " while an int was expected."))

/-- `FloatParameter.from_pb_value` (requires an exact float kind). -/
def FloatParameter.from_pb_value (value : PyValue) : Except PyErr PyValue :=
  if isInstFloat value then .ok value
  else
    .error (.wrongFieldType
      ("Cannot convert value \"" ++ pyStrValue value ++ "\" from a PB value as the type is "
        ++ pyTypeName value ++ " while a float was expected."))

/-- `FloatParameter.to_pb_value`. -/
def FloatParameter.to_pb_value (value : PyValue) : Except PyErr PyValue :=
  if isInstFloat value then .ok value
  else
    .error (.wrongFieldType
      ("Cannot convert value \"" ++ pyStrValue value ++ "\" to a PB value as the type is "
        ++ pyTypeName value ++ " while an int was expected."))

/-- `DateTimeParameter.from_pb_value`: `datetime.fromtimestamp(value)` on a
float, modelled as carrying the timestamp over. -/
def DateTimeParameter.from_pb_value (value : PyValue) : Except PyErr PyValue :=
  match value with
  | .vFloat q => .ok (.vDatetime q)
  | v =>
    .error (.wrongFieldType
      ("Cannot convert value \"" ++ pyStrValue v ++ "\" from a PB value as the type is "
        ++ pyTypeName v ++ " while a float was expected."))

/-- `DateTimeParameter.to_pb_value`: `value.timestamp()`. -/
def DateTimeParameter.to_pb_value (value : PyValue) : Except PyErr PyValue :=
  match value with
  | .vDatetime ts => .ok (.vFloat ts)
  | v =>
    .error (.wrongFieldType
      ("Cannot convert value \"" ++ pyStrValue v ++ "\" to a PB value as the type is "
        ++ pyTypeName v ++ " while a datetime was expected."))

/-- A `Type[WorkflowParameter]` argument: one of the five parameter
classes. -/
inductive ParameterClass where
  | StringParameter
  | BooleanParameter
  | IntegerParameter
  | FloatParameter
  | DateTimeParameter

/-- Static-method dispatch `expected_type.from_pb_value`. -/
def ParameterClass.from_pb_value : ParameterClass → PyValue → Except PyErr PyValue
  | .StringParameter, v => StringParameter.from_pb_value v
  | .BooleanParameter, v => BooleanParameter.from_pb_value v
  | .IntegerParameter, v => IntegerParameter.from_pb_value v
  | .FloatParameter, v => FloatParameter.from_pb_value v
  | .DateTimeParameter, v => DateTimeParameter.from_pb_value v

/-- Instance-method dispatch `parameter.to_pb_value` on a
`WorkflowParameter`. -/
def WorkflowParameter.to_pb_value : WorkflowParameter → PyValue → Except PyErr PyValue
  | .stringParam _ _ _ _ _, v => StringParameter.to_pb_value v
  | .booleanParam _ _ _ _, v => BooleanParameter.to_pb_value v
  | .integerParam _ _ _ _ _ _, v => IntegerParameter.to_pb_value v
  | .floatParam _ _ _ _ _ _, v => FloatParameter.to_pb_value v
  | .datetimeParam _ _ _ _, v => DateTimeParameter.to_pb_value v

/-! ## `parse_workflow_config_parameter` and `convert_params_dict_to_struct` -/

/-- A runtime parameter dictionary (`ParamsDict`). -/
def ParamsDict : Type := List (String × PyValue)

/-- `parse_workflow_config_parameter(workflow_config, field_key,
expected_type, default_value)`.  `maybe_value = workflow_config.get(...)`,
`is_present = field_key in workflow_config`; an absent key uses the default
when one is supplied and raises `MissingFieldException()` otherwise; a
present key is converted with `expected_type.from_pb_value`, and a
`WrongFieldTypeException` from that conversion is downgraded to the default
when one is supplied and re-raised otherwise. -/
def parse_workflow_config_parameter (workflow_config : ParamsDict) (field_key : String)
    (expected_type : ParameterClass) (default_value : Option PyValue) :
    Except PyErr PyValue :=
  let maybe_value := pyDictGet workflow_config field_key
  match maybe_value with
  | none =>
    -- not is_present
    match default_value with
    | some d => .ok d
    | none => .error (.missingField "")
  | some mv =>
    match expected_type.from_pb_value mv with
    | .ok v => .ok v
    | .error (.wrongFieldType m) =>
      match default_value with
      | some d => .ok d
      | none => .error (.wrongFieldType m)
    | .error e => .error e

/-- The value is Python `None` (`v is None`). -/
def isVNone : PyValue → Bool
  | .vNone => true
  | _ => false

/-- The `AttributeError` message produced when the
`f'Param with key "{parameter.key}" ...'` f-string reads the nonexistent
attribute `key` of the parameter. -/
def attrKeyErrMsg (parameter : WorkflowParameter) : String :=
  "\x27" ++ parameter.className ++ "\x27 object has no attribute \x27key\x27"

/-- The body of the `for parameter in workflow.workflow_parameters` loop of
`convert_params_dict_to_struct`, threading `normalized_dict`.  When
`param_value = params_dict.get(parameter.key_name)` is `None` (key absent
or mapped to `None`), the error-message f-string reads the nonexistent
attribute `parameter.key` and raises `AttributeError` before the
`MissingFieldException` can be constructed. -/
def convertParamsLoop : List WorkflowParameter → ParamsDict →
    List (String × PyValue) → Except PyErr (List (String × PyValue))
  | [], _, normalized_dict => .ok normalized_dict
  | parameter :: rest, params_dict, normalized_dict =>
    match pyDictGet params_dict parameter.key_name with
    | none => .error (.attributeError (attrKeyErrMsg parameter))
    | some param_value =>
      if isVNone param_value then .error (.attributeError (attrKeyErrMsg parameter))
      else
        match parameter.to_pb_value param_value with
        | .ok pb_value =>
          convertParamsLoop rest params_dict (dictSet normalized_dict parameter.key_name pb_value)
        | .error e => .error e

/-- The protobuf `Struct` built by `convert_params_dict_to_struct`,
modelled as the dictionary it is updated with. -/
def Struct : Type := List (String × PyValue)

/-- `convert_params_dict_to_struct(workflow, params_dict)`.  When
`workflow.workflow_parameters` is `None`, the `for` loop iterates `None`
and raises `TypeError`. -/
def convert_params_dict_to_struct (workflow : WorkflowType) (params_dict : ParamsDict) :
    Except PyErr Struct :=
  match workflow.workflow_parameters with
  | none => .error (.typeError "\x27NoneType\x27 object is not iterable")
  | some parameters =>
    match convertParamsLoop parameters params_dict [] with
    | .ok normalized_dict => .ok normalized_dict
    | .error e => .error e

/-! ## `from_json_config` (json configuration validation) -/

/-- The pattern `if k in json_config and not isinstance(json_config[k], T):
raise TypeError(...)` shared by the `from_json_config` validators. -/
def checkFieldType (cfg : List (String × PyValue)) (k : String) (pred : PyValue → Bool)
    (msg : PyValue → String) : Except PyErr Unit :=
  match pyDictGet cfg k with
  | some v => if pred v then .ok () else .error (.typeError (msg v))
  | none => .ok ()

/-- `cls(**json_config)` rejects keys that are not dataclass fields. -/
def checkAllowedKwargs (cfg : List (String × PyValue)) (allowed : List String) :
    Except PyErr Unit :=
  match cfg.find? (fun p => !(allowed.contains p.1)) with
  | some p =>
    .error (.typeError ("__init__() got an unexpected keyword argument \x27" ++ p.1 ++ "\x27"))
  | none => .ok ()

/-- Read an optional `Union[str, None]` base field (`title`,
`description`) from the kwargs.  The dataclass would store a value of any
type; the model only represents the annotated types. -/
def readOptStrField (cfg : List (String × PyValue)) (k : String) :
    Except PyErr (Option String) :=
  match pyDictGet cfg k with
  | none => .ok none
  | some .vNone => .ok none
  | some (.vStr s) => .ok (some s)
  | some _ => .error (.typeError ("model restriction: " ++ k ++ " must be a str or None"))

/-- Read the required `key_name` kwarg. -/
def readKeyNameField (cfg : List (String × PyValue)) : Except PyErr String :=
  match pyDictGet cfg "key_name" with
  | some (.vStr s) => .ok s
  | some _ => .error (.typeError "model restriction: key_name must be a str")
  | none => .error (.typeError "__init__() missing 1 required positional argument: \x27key_name\x27")

/-- The shared base fields read by `cls(**json_config)`. -/
def readBaseFields (cfg : List (String × PyValue)) :
    Except PyErr (String × Option String × Option String) := do
  let key_name ← readKeyNameField cfg
  let title ← readOptStrField cfg "title"
  let description ← readOptStrField cfg "description"
  .ok (key_name, title, description)

/-- `StringParameter(**json_config, enum_options=...)`. -/
def buildStringParameter (cfg : List (String × PyValue))
    (enum_options : Option (List StringEnumOption)) : Except PyErr WorkflowParameter := do
  checkAllowedKwargs cfg ["key_name", "title", "description", "default"]
  let (key_name, title, description) ← readBaseFields cfg
  let default : Option String ←
    match pyDictGet cfg "default" with
    | none => .ok none
    | some (.vStr s) => .ok (some s)
    | some _ => .error (.typeError "model restriction: default must be a str")
  .ok (.stringParam key_name title description default enum_options)

/-- The two per-option checks of the enum-option loop in
`StringParameter.from_json_config`.  The second check reads
`json_config[enum_key]`, not `enum_option[enum_key]`, exactly as the
source does, and its message lacks the closing quote (source typo
preserved). -/
def checkEnumKey (json_config enum_option : List (String × PyValue)) (enum_key : String) :
    Except PyErr Unit := do
  if pyDictContains enum_option enum_key = false then
    .error (.typeError ("A string enum option must contain a \x27" ++ enum_key ++ "\x27"))
  else
    match pyDictGet json_config enum_key with
    | some v =>
      if isInstStr v then .ok ()
      else
        .error (.typeError ("\x27" ++ enum_key ++ "\x27 for a string enum option must be in \x27str\x27 format: \x27"
          ++ pyStrValue v))
    | none => .ok ()

/-- Read a checked enum-option field.  Python would store a non-string
value verbatim; the model stores its string rendering. -/
def readEnumOptionField (enum_option : List (String × PyValue)) (key : String) :
    Except PyErr String :=
  match pyDictGet enum_option key with
  | some (.vStr s) => .ok s
  | some v => .ok (pyStrValue v)
  | none => .error (.typeError ("A string enum option must contain a \x27" ++ key ++ "\x27"))

/-- The `for enum_option in json_config["enum_options"]` loop. -/
def parseEnumOptions (json_config : List (String × PyValue)) :
    List PyValue → Except PyErr (List StringEnumOption)
  | [] => .ok []
  | .vDict enum_option :: rest => do
    checkEnumKey json_config enum_option "key_name"
    checkEnumKey json_config enum_option "display_name"
    let k ← readEnumOptionField enum_option "key_name"
    let d ← readEnumOptionField enum_option "display_name"
    let others ← parseEnumOptions json_config rest
    .ok (⟨k, d⟩ :: others)
  | e :: _ =>
    -- `enum_key not in enum_option` on a non-dict element raises TypeError
    .error (.typeError ("argument of type " ++ pyTypeName e ++ " is not iterable"))

/-- `StringParameter.from_json_config`. -/
def StringParameter.from_json_config (json_config : List (String × PyValue)) :
    Except PyErr WorkflowParameter := do
  checkFieldType json_config "default" isInstStr
    (fun _ => "\x27default\x27 for StringParameter must be in \x27str\x27 format")
  checkFieldType json_config "enum_options" isInstList
    (fun _ => "\x27enum_options\x27 for StringParameter must be a \x27list\x27")
  match pyDictGet json_config "enum_options" with
  | some (.vList elems) => do
    let enum_options ← parseEnumOptions json_config elems
    buildStringParameter (dictPop json_config "enum_options") (some enum_options)
  | some _ =>
    -- unreachable: the isInstList check above already raised
    .error (.typeError "\x27enum_options\x27 for StringParameter must be a \x27list\x27")
  | none => buildStringParameter json_config none

/-- `BooleanParameter(**json_config)`. -/
def buildBooleanParameter (cfg : List (String × PyValue)) : Except PyErr WorkflowParameter := do
  checkAllowedKwargs cfg ["key_name", "title", "description", "default"]
  let (key_name, title, description) ← readBaseFields cfg
  let default : Option Bool ←
    match pyDictGet cfg "default" with
    | none => .ok none
    | some (.vBool b) => .ok (some b)
    | some _ => .error (.typeError "model restriction: default must be a bool")
  .ok (.booleanParam key_name title description default)

/-- `BooleanParameter.from_json_config`. -/
def BooleanParameter.from_json_config (json_config : List (String × PyValue)) :
    Except PyErr WorkflowParameter := do
  checkFieldType json_config "default" isInstBool
    (fun v => "\x27default\x27 for BooleanParameter must be in \x27bool\x27 format: \x27"
      ++ pyStrValue v ++ "\x27")
  buildBooleanParameter json_config

/-- Read an optional int field from the kwargs (a Python `bool` is an
`int` and passes the validator; it is stored as its integer value). -/
def readOptIntField (cfg : List (String × PyValue)) (k : String) :
    Except PyErr (Option Int) :=
  match pyDictGet cfg k with
  | none => .ok none
  | some (.vInt n) => .ok (some n)
  | some (.vBool b) => .ok (some (if b then 1 else 0))
  | some _ => .error (.typeError ("model restriction: " ++ k ++ " must be an int"))

/-- `IntegerParameter(**json_config)`. -/
def buildIntegerParameter (cfg : List (String × PyValue)) : Except PyErr WorkflowParameter := do
  checkAllowedKwargs cfg ["key_name", "title", "description", "default", "minimum", "maximum"]
  let (key_name, title, description) ← readBaseFields cfg
  let default ← readOptIntField cfg "default"
  let minimum ← readOptIntField cfg "minimum"
  let maximum ← readOptIntField cfg "maximum"
  .ok (.integerParam key_name title description default minimum maximum)

/-- The message of the `IntegerParameter.from_json_config` validator. -/
def integerFromJsonErrMsg (int_param : String) (v : PyValue) : String :=
  "\x27" ++ int_param ++ "\x27 for IntegerParameter must be in \x27int\x27 format: \x27"
    ++ pyStrValue v ++ "\x27"

/-- `IntegerParameter.from_json_config`: the loop over
`["default", "minimum", "maximum"]`. -/
def IntegerParameter.from_json_config (json_config : List (String × PyValue)) :
    Except PyErr WorkflowParameter := do
  checkFieldType json_config "default" isInstInt (integerFromJsonErrMsg "default")
  checkFieldType json_config "minimum" isInstInt (integerFromJsonErrMsg "minimum")
  checkFieldType json_config "maximum" isInstInt (integerFromJsonErrMsg "maximum")
  buildIntegerParameter json_config

/-- The condition of the `FloatParameter.from_json_config` validator:
`isinstance(v, float) or isinstance(v, int)` (the source rejects a value
that is neither). -/
def isFloatOrInt (v : PyValue) : Bool :=
  isInstFloat v || isInstInt v

/-- The message of the `FloatParameter.from_json_config` validator. -/
def floatFromJsonErrMsg (float_param : String) (v : PyValue) : String :=
  "\x27" ++ float_param ++ "\x27 for FloatParameter must be in \x27float\x27 format: \x27"
    ++ pyStrValue v ++ "\x27"

/-- Read an optional float field from the kwargs (ints and bools passed
the validator and are stored; the model keeps their numeric value). -/
def readOptRatField (cfg : List (String × PyValue)) (k : String) :
    Except PyErr (Option Rat) :=
  match pyDictGet cfg k with
  | none => .ok none
  | some (.vFloat q) => .ok (some q)
  | some (.vInt n) => .ok (some (mkRat n 1))
  | some (.vBool b) => .ok (some (if b then 1 else 0))
  | some _ => .error (.typeError ("model restriction: " ++ k ++ " must be a float"))

/-- `FloatParameter(**json_config)`. -/
def buildFloatParameter (cfg : List (String × PyValue)) : Except PyErr WorkflowParameter := do
  checkAllowedKwargs cfg ["key_name", "title", "description", "default", "minimum", "maximum"]
  let (key_name, title, description) ← readBaseFields cfg
  let default ← readOptRatField cfg "default"
  let minimum ← readOptRatField cfg "minimum"
  let maximum ← readOptRatField cfg "maximum"
  .ok (.floatParam key_name title description default minimum maximum)

/-- `FloatParameter.from_json_config`: the loop over
`["default", "minimum", "maximum"]`. -/
def FloatParameter.from_json_config (json_config : List (String × PyValue)) :
    Except PyErr WorkflowParameter := do
  checkFieldType json_config "default" isFloatOrInt (floatFromJsonErrMsg "default")
  checkFieldType json_config "minimum" isFloatOrInt (floatFromJsonErrMsg "minimum")
  checkFieldType json_config "maximum" isFloatOrInt (floatFromJsonErrMsg "maximum")
  buildFloatParameter json_config

/-- `datetime.fromisoformat` applied to an arbitrary value: a non-string
argument raises `TypeError`; a string either parses or raises
`ValueError`.  As in the wire model, ISO strings are modelled by the
timestamp they encode (here: its decimal rendering), which keeps
`fromisoformat` a lossless left inverse of `isoformat`; no claim depends
on which strings are well-formed. -/
def datetime_fromisoformat (v : PyValue) : Except PyErr Rat :=
  match v with
  | .vStr s =>
    match s.toInt? with
    | some n => .ok (mkRat n 1)
    | none => .error (.valueError ("Invalid isoformat string: \x27" ++ s ++ "\x27"))
  | _ => .error (.typeError "fromisoformat: argument must be str")

/-- `DateTimeParameter(**json_config)` after the source replaced
`json_config["default"]` with the parsed datetime, passed here
separately. -/
def buildDateTimeParameter (cfg : List (String × PyValue)) (default : Option Rat) :
    Except PyErr WorkflowParameter := do
  checkAllowedKwargs cfg ["key_name", "title", "description", "default"]
  let (key_name, title, description) ← readBaseFields cfg
  .ok (.datetimeParam key_name title description default)

/-- `DateTimeParameter.from_json_config`: a supplied `default` is parsed
with `fromisoformat`; a `TypeError` from it (non-string value) is caught
and re-raised as a `TypeError` naming the field and the expected format,
while a `ValueError` (malformed string) propagates uncaught. -/
def DateTimeParameter.from_json_config (json_config : List (String × PyValue)) :
    Except PyErr WorkflowParameter :=
  match pyDictGet json_config "default" with
  | some v =>
    match datetime_fromisoformat v with
    | .ok default => buildDateTimeParameter json_config (some default)
    | .error (.typeError _) =>
      .error (.typeError
        ("Invalid default datetime format, should be a string in ISO format: \x27"
          ++ pyStrValue v ++ "\x27"))
    | .error e => .error e
  | none => buildDateTimeParameter json_config none

/-! ## Queue names, jobs and the client-side session (`queue_names.py`,
`omotes_interface.py`) -/

/-- `Job` dataclass: the immutable job handle (the uuid is modelled as a
string). -/
structure Job where
  id : String
  workflow_type : WorkflowType

namespace OmotesQueueNames

/-- `f"job_submissions.{workflow_type.workflow_type_name}"`. -/
def job_submission_queue_name (workflow_type : WorkflowType) : String :=
  "job_submissions." ++ workflow_type.workflow_type_name

/-- `f"jobs.{job.id}.result"`. -/
def job_results_queue_name (job : Job) : String :=
  "jobs." ++ job.id ++ ".result"

/-- `f"jobs.{job.id}.progress"`. -/
def job_progress_queue_name (job : Job) : String :=
  "jobs." ++ job.id ++ ".progress"

/-- `f"jobs.{job.id}.status"`. -/
def job_status_queue_name (job : Job) : String :=
  "jobs." ++ job.id ++ ".status"

/-- `job_cancel_queue_name`: a static method with NO parameters returning
the shared queue name. -/
def job_cancel_queue_name : Unit → String :=
  fun _ => "job_cancellations"

end OmotesQueueNames

/-- `JobCancel` protobuf message. -/
structure JobCancel where
  uuid : String

/-- `JobSubmission` protobuf message.  `params_dict` is the protobuf
`Struct` field available on the wire message for encoded parameter values;
it is unset (`none`) unless explicitly populated. -/
structure JobSubmission where
  uuid : String
  timeout_ms : Option Int := none
  workflow_type : String
  esdl : String
  params_dict : Option Struct := none

/-- A message sent to the broker. -/
inductive MessageBody where
  | jobSubmission (m : JobSubmission)
  | jobCancel (m : JobCancel)

/-- The calls `OmotesInterface` makes on the `BrokerInterface` capability,
in program order. -/
inductive BrokerAction where
  | receiveNextMessage (queue_name : String)
  | addQueueSubscription (queue_name : String)
  | sendMessageTo (queue_name : String) (message : MessageBody)

/-- The action establishes a subscription (the one-shot result consumer or
a durable queue subscription). -/
def BrokerAction.isSubscribe : BrokerAction → Bool
  | .receiveNextMessage _ => true
  | .addQueueSubscription _ => true
  | .sendMessageTo _ _ => false

/-- The action publishes a message. -/
def BrokerAction.isPublish : BrokerAction → Bool
  | .sendMessageTo _ _ => true
  | _ => false

def BrokerAction.queue_name : BrokerAction → String
  | .receiveNextMessage q => q
  | .addQueueSubscription q => q
  | .sendMessageTo q _ => q

/-- A Python call with an explicit arity check: calling a function with
more positional arguments than it declares raises `TypeError` before the
function body runs. -/
def checkCallArity (function_name : String) (expected got : Nat) : Except PyErr Unit :=
  if got == expected then .ok ()
  else
    .error (.typeError (function_name ++ "() takes " ++ toString expected
      ++ " positional arguments but " ++ toString got ++ " was given"))

namespace OmotesInterface

/-- `OmotesInterface.connect_to_submitted_job`: subscribe to the result
queue (consume exactly one message), then to the progress queue when a
progress callback was supplied, then to the status queue when a status
callback was supplied.  The callbacks themselves only matter through their
presence, so they are modelled as booleans; `auto_disconnect_on_result`
selects the auto-disconnect handler and produces no broker call here. -/
def connect_to_submitted_job (job : Job)
    (callback_on_progress_update callback_on_status_update : Bool)
    (auto_disconnect_on_result : Bool) : List BrokerAction :=
  let _ := auto_disconnect_on_result
  [BrokerAction.receiveNextMessage (OmotesQueueNames.job_results_queue_name job)]
    ++ (if callback_on_progress_update then
          [BrokerAction.addQueueSubscription (OmotesQueueNames.job_progress_queue_name job)]
        else [])
    ++ (if callback_on_status_update then
          [BrokerAction.addQueueSubscription (OmotesQueueNames.job_status_queue_name job)]
        else [])

/-- `OmotesInterface.submit_job`.  `uuid.uuid4()` is modelled by the
`generated_job_id` input; `job_timeout` is modelled by its millisecond
value.  The returned pair is the job handle together with the broker calls
in program order.  Note that the `job_config` argument is accepted but
never used by the source: the `JobSubmission` message is built from the
uuid, timeout, workflow type name and esdl only. -/
def submit_job (generated_job_id : String) (esdl : String)
    (job_config : ParamsDict) (workflow_type : WorkflowType)
    (timeout_ms : Option Int)
    (callback_on_progress_update callback_on_status_update : Bool)
    (auto_disconnect_on_result : Bool) : Job × List BrokerAction :=
  let _ := job_config
  let job : Job := { id := generated_job_id, workflow_type := workflow_type }
  let connect_actions :=
    connect_to_submitted_job job callback_on_progress_update callback_on_status_update
      auto_disconnect_on_result
  let job_submission_msg : JobSubmission :=
    { uuid := job.id
      timeout_ms := timeout_ms
      workflow_type := workflow_type.workflow_type_name
      esdl := esdl }
  (job,
    connect_actions
      ++ [BrokerAction.sendMessageTo (OmotesQueueNames.job_submission_queue_name workflow_type)
            (.jobSubmission job_submission_msg)])

/-- `OmotesInterface.cancel_job`.  The source calls
`OmotesQueueNames.job_cancel_queue_name(job)` — one positional argument to
a static method declared with zero parameters — so evaluating the argument
of `send_message_to` raises `TypeError` and nothing is published. -/
def cancel_job (job : Job) : Except PyErr (List BrokerAction) := do
  let cancel_msg : JobCancel := { uuid := job.id }
  checkCallArity "job_cancel_queue_name" 0 1
  let queue := OmotesQueueNames.job_cancel_queue_name ()
  .ok [BrokerAction.sendMessageTo queue (.jobCancel cancel_msg)]

end OmotesInterface

/-! ## Wire catalog (`workflow_pb2`) and `WorkflowTypeManager` -/

/-- `StringEnum` protobuf message. -/
structure StringEnumPb where
  key_name : String := ""
  display_name : String := ""

/-- `StringParameter` protobuf message.  `default` keeps explicit
presence; a plain proto3 read of an unset string field yields `""`. -/
structure StringParameterPb where
  default : Option String := none
  enum_options : List StringEnumPb := []

/-- `BooleanParameter` protobuf message. -/
structure BooleanParameterPb where
  default : Option Bool := none

/-- `IntegerParameter` protobuf message; `minimum`/`maximum` presence is
inspected with `HasField`, hence the explicit `Option`. -/
structure IntegerParameterPb where
  default : Option Int := none
  minimum : Option Int := none
  maximum : Option Int := none

/-- `FloatParameter` protobuf message. -/
structure FloatParameterPb where
  default : Option Rat := none
  minimum : Option Rat := none
  maximum : Option Rat := none

/-- `DateTimeParameter` protobuf message; the ISO-format `default` string
is modelled by the timestamp it encodes (`isoformat`/`fromisoformat` are
lossless to the second). -/
structure DateTimeParameterPb where
  default : Option Rat := none

/-- The `parameter_type` oneof of the `WorkflowParameter` protobuf
message. -/
inductive ParameterTypeOneofPb where
  | string_parameter (p : StringParameterPb)
  | boolean_parameter (p : BooleanParameterPb)
  | integer_parameter (p : IntegerParameterPb)
  | float_parameter (p : FloatParameterPb)
  | datetime_parameter (p : DateTimeParameterPb)

/-- `WorkflowParameter` protobuf message.  Unset proto3 strings read as
`""`; the oneof is `none` when no variant is populated
(`WhichOneof` returns `None`). -/
structure WorkflowParameterPb where
  key_name : String := ""
  title : String := ""
  description : String := ""
  parameter_type : Option ParameterTypeOneofPb := none

/-- `Workflow` protobuf message. -/
structure WorkflowPb where
  type_name : String := ""
  type_description : String := ""
  parameters : List WorkflowParameterPb := []

/-- `AvailableWorkflows` protobuf message. -/
structure AvailableWorkflowsPb where
  workflows : List WorkflowPb := []

/-- Proto3 read of a string field that may have been left unset. -/
def pbReadStr (v : Option String) : String := v.getD ""

/-- Per-class `to_pb_message`, producing the populated oneof variant.
`StringParameter.to_pb_message` extends `enum_options` only under the
truthiness test `if self.enum_options:` (both `None` and `[]` skip). -/
def WorkflowParameter.to_pb_message : WorkflowParameter → ParameterTypeOneofPb
  | .stringParam _ _ _ default enum_options =>
    let base : StringParameterPb := { default := default }
    match enum_options with
    | some opts =>
      if opts.isEmpty then .string_parameter base
      else
        .string_parameter
          { base with
            enum_options := opts.map (fun o => { key_name := o.key_name, display_name := o.display_name }) }
    | none => .string_parameter base
  | .booleanParam _ _ _ default => .boolean_parameter { default := default }
  | .integerParam _ _ _ default minimum maximum =>
    .integer_parameter { default := default, minimum := minimum, maximum := maximum }
  | .floatParam _ _ _ default minimum maximum =>
    .float_parameter { default := default, minimum := minimum, maximum := maximum }
  | .datetimeParam _ _ _ default => .datetime_parameter { default := default }

/-- The `WorkflowParameterPb` built for one parameter inside
`WorkflowTypeManager.to_pb_message`: the base message carries `key_name`,
`title`, `description`, and the matching oneof variant is populated via
`CopyFrom` of the per-class `to_pb_message`. -/
def paramToWorkflowParameterPb (p : WorkflowParameter) : WorkflowParameterPb :=
  { key_name := p.key_name
    title := pbReadStr p.title
    description := pbReadStr p.description
    parameter_type := some p.to_pb_message }

/-- `StringParameter.from_pb_message`. -/
def StringParameter.from_pb_message (parameter_pb : WorkflowParameterPb)
    (parameter_type_pb : StringParameterPb) : WorkflowParameter :=
  .stringParam parameter_pb.key_name (some parameter_pb.title) (some parameter_pb.description)
    (some (pbReadStr parameter_type_pb.default))
    (some (parameter_type_pb.enum_options.map (fun e => ⟨e.key_name, e.display_name⟩)))

/-- `BooleanParameter.from_pb_message`. -/
def BooleanParameter.from_pb_message (parameter_pb : WorkflowParameterPb)
    (parameter_type_pb : BooleanParameterPb) : WorkflowParameter :=
  .booleanParam parameter_pb.key_name (some parameter_pb.title) (some parameter_pb.description)
    (some (parameter_type_pb.default.getD false))

/-- `IntegerParameter.from_pb_message`: `minimum`/`maximum` use `HasField`
presence; `default` is a plain read. -/
def IntegerParameter.from_pb_message (parameter_pb : WorkflowParameterPb)
    (parameter_type_pb : IntegerParameterPb) : WorkflowParameter :=
  .integerParam parameter_pb.key_name (some parameter_pb.title) (some parameter_pb.description)
    (some (parameter_type_pb.default.getD 0))
    parameter_type_pb.minimum
    parameter_type_pb.maximum

/-- `FloatParameter.from_pb_message`. -/
def FloatParameter.from_pb_message (parameter_pb : WorkflowParameterPb)
    (parameter_type_pb : FloatParameterPb) : WorkflowParameter :=
  .floatParam parameter_pb.key_name (some parameter_pb.title) (some parameter_pb.description)
    (some (parameter_type_pb.default.getD 0))
    parameter_type_pb.minimum
    parameter_type_pb.maximum

/-- `DateTimeParameter.from_pb_message`: `default` is parsed with
`fromisoformat` under `HasField`, modelled as carrying the timestamp. -/
def DateTimeParameter.from_pb_message (parameter_pb : WorkflowParameterPb)
    (parameter_type_pb : DateTimeParameterPb) : WorkflowParameter :=
  .datetimeParam parameter_pb.key_name (some parameter_pb.title) (some parameter_pb.description)
    parameter_type_pb.default

/-- The per-parameter dispatch of `WorkflowTypeManager.from_pb_message`:
`WhichOneof("parameter_type")` returning `None` raises `TypeError`;
otherwise the matching class reconstructs the parameter
(`PB_CLASS_TO_PARAMETER_CLASS` covers the closed oneof, so the
`RuntimeError` branch for an unknown protobuf class is unreachable). -/
def parameterFromPb (parameter_pb : WorkflowParameterPb) : Except PyErr WorkflowParameter :=
  match parameter_pb.parameter_type with
  | none =>
    .error (.typeError ("Parameter protobuf message with invalid type: " ++ parameter_pb.key_name))
  | some (.string_parameter p) => .ok (StringParameter.from_pb_message parameter_pb p)
  | some (.boolean_parameter p) => .ok (BooleanParameter.from_pb_message parameter_pb p)
  | some (.integer_parameter p) => .ok (IntegerParameter.from_pb_message parameter_pb p)
  | some (.float_parameter p) => .ok (FloatParameter.from_pb_message parameter_pb p)
  | some (.datetime_parameter p) => .ok (DateTimeParameter.from_pb_message parameter_pb p)

/-- The `for parameter_pb in workflow_pb.parameters` loop of
`from_pb_message`. -/
def parametersFromPb : List WorkflowParameterPb → Except PyErr (List WorkflowParameter)
  | [] => .ok []
  | pb :: rest => do
    let p ← parameterFromPb pb
    let ps ← parametersFromPb rest
    .ok (p :: ps)

/-- The `Workflow` message built for one workflow inside
`WorkflowTypeManager.to_pb_message` (the parameter loop runs under the
truthiness test `if _workflow.workflow_parameters:`). -/
def workflowToPb (w : WorkflowType) : WorkflowPb :=
  { type_name := w.workflow_type_name
    type_description := w.workflow_type_description_name
    parameters :=
      match w.workflow_parameters with
      | some ps => if ps.isEmpty then [] else ps.map paramToWorkflowParameterPb
      | none => [] }

/-- One workflow reconstructed by `from_pb_message`. -/
def workflowFromPb (workflow_pb : WorkflowPb) : Except PyErr WorkflowType := do
  let ps ← parametersFromPb workflow_pb.parameters
  .ok { workflow_type_name := workflow_pb.type_name
        workflow_type_description_name := workflow_pb.type_description
        workflow_parameters := some ps }

/-- The `for workflow_pb in available_workflows_pb.workflows` loop. -/
def workflowsFromPb : List WorkflowPb → Except PyErr (List WorkflowType)
  | [] => .ok []
  | pb :: rest => do
    let w ← workflowFromPb pb
    let ws ← workflowsFromPb rest
    .ok (w :: ws)

/-- `WorkflowTypeManager`: `_workflows` is the Python dict keyed by
`workflow_type_name`. -/
structure WorkflowTypeManager where
  _workflows : List (String × WorkflowType)

/-- `WorkflowTypeManager.__init__`: the dict comprehension
`{workflow.workflow_type_name: workflow for workflow in possible_workflows}`
(later duplicates overwrite earlier entries in place). -/
def WorkflowTypeManager.make (possible_workflows : List WorkflowType) : WorkflowTypeManager :=
  ⟨possible_workflows.foldl (fun d w => dictSet d w.workflow_type_name w) []⟩

/-- `WorkflowTypeManager.get_workflow_by_name`. -/
def WorkflowTypeManager.get_workflow_by_name (m : WorkflowTypeManager) (name : String) :
    Option WorkflowType :=
  pyDictGet m._workflows name

/-- `WorkflowTypeManager.get_all_workflows`: `list(self._workflows.values())`. -/
def WorkflowTypeManager.get_all_workflows (m : WorkflowTypeManager) : List WorkflowType :=
  m._workflows.map (·.2)

/-- `WorkflowTypeManager.workflow_exists`. -/
def WorkflowTypeManager.workflow_exists (m : WorkflowTypeManager) (workflow : WorkflowType) :
    Bool :=
  pyDictContains m._workflows workflow.workflow_type_name

/-- `WorkflowTypeManager.to_pb_message`. -/
def WorkflowTypeManager.to_pb_message (m : WorkflowTypeManager) : AvailableWorkflowsPb :=
  ⟨m.get_all_workflows.map workflowToPb⟩

/-- `WorkflowTypeManager.from_pb_message`. -/
def WorkflowTypeManager.from_pb_message (available_workflows_pb : AvailableWorkflowsPb) :
    Except PyErr WorkflowTypeManager := do
  let ws ← workflowsFromPb available_workflows_pb.workflows
  .ok (WorkflowTypeManager.make ws)

/-- The ordered parameter key names of a workflow (absent parameter list
and empty parameter list both contribute no key names). -/
def wtKeyNames (w : WorkflowType) : List String :=
  (w.workflow_parameters.getD []).map (·.key_name)

/-! ## Helper lemmas -/

@[simp]
theorem exceptBind_ok {α β : Type} (a : α) (f : α → Except PyErr β) :
    ((.ok a : Except PyErr α) >>= f) = f a := rfl

@[simp]
theorem exceptBind_err {α β : Type} (e : PyErr) (f : α → Except PyErr β) :
    ((.error e : Except PyErr α) >>= f) = .error e := rfl

/-! ## Claims C8, C6, C9 -/

/-- C8: two `WorkflowType` values are equal exactly when their
`workflow_type_name` matches (so differing names never compare equal), and
equal names give equal hash-field tuples (hence equal Python hashes),
regardless of `workflow_type_description_name` or `workflow_parameters`. -/
theorem workflowType_eq_and_hash_by_name_only (a b : WorkflowType) :
    (WorkflowType.pyEq a b = true ↔ a.workflow_type_name = b.workflow_type_name)
    ∧ (a.workflow_type_name = b.workflow_type_name →
        WorkflowType.hashFields a = WorkflowType.hashFields b) := by
  refine ⟨?_, ?_⟩
  · simp [WorkflowType.pyEq]
  · intro h
    simp [WorkflowType.hashFields, h]

theorem workflowType_eq_and_hash_by_name_only_witness :
    WorkflowType.pyEq ⟨"some-name", "some descript 1", none⟩
        ⟨"some-name", "some descript 2", none⟩ = true
    ∧ WorkflowType.hashFields ⟨"some-name", "some descript 1", none⟩
        = WorkflowType.hashFields ⟨"some-name", "some descript 2", none⟩ :=
  ⟨(workflowType_eq_and_hash_by_name_only ⟨"some-name", "some descript 1", none⟩
      ⟨"some-name", "some descript 2", none⟩).1.mpr rfl,
   (workflowType_eq_and_hash_by_name_only ⟨"some-name", "some descript 1", none⟩
      ⟨"some-name", "some descript 2", none⟩).2 rfl⟩

/-- C6 counterexample: two `StringParameter` instances with identical
`key_name` and identical variant-specific fields but different `title`
values compare UNEQUAL — `title` (declared `compare=True`) participates in
dataclass equality, refuting the claim that equality is independent of
title/description. -/
theorem parameter_title_breaks_equality :
    WorkflowParameter.pyEq
      (.stringParam "a" (some "t1") none none none)
      (.stringParam "a" (some "t2") none none none) = false := by
  rfl

/-- C6 (amended): dataclass equality on `WorkflowParameter` compares the
class together with `key_name`, `title` AND `description`, and is
independent only of the variant-specific fields declared `compare=False`
(`default`, `enum_options`, `minimum`, `maximum`). -/
theorem parameter_equality_compares_base_fields :
    (∀ (k1 k2 : String) (t1 t2 d1 d2 : Option String) (df1 df2 : Option String)
        (eo1 eo2 : Option (List StringEnumOption)),
      WorkflowParameter.pyEq (.stringParam k1 t1 d1 df1 eo1) (.stringParam k2 t2 d2 df2 eo2)
        = (k1 == k2 && t1 == t2 && d1 == d2))
    ∧ (∀ (k1 k2 : String) (t1 t2 d1 d2 : Option String) (df1 df2 : Option Bool),
      WorkflowParameter.pyEq (.booleanParam k1 t1 d1 df1) (.booleanParam k2 t2 d2 df2)
        = (k1 == k2 && t1 == t2 && d1 == d2))
    ∧ (∀ (k1 k2 : String) (t1 t2 d1 d2 : Option String) (df1 mn1 mx1 df2 mn2 mx2 : Option Int),
      WorkflowParameter.pyEq (.integerParam k1 t1 d1 df1 mn1 mx1)
          (.integerParam k2 t2 d2 df2 mn2 mx2)
        = (k1 == k2 && t1 == t2 && d1 == d2))
    ∧ (∀ (k1 k2 : String) (t1 t2 d1 d2 : Option String) (df1 mn1 mx1 df2 mn2 mx2 : Option Rat),
      WorkflowParameter.pyEq (.floatParam k1 t1 d1 df1 mn1 mx1) (.floatParam k2 t2 d2 df2 mn2 mx2)
        = (k1 == k2 && t1 == t2 && d1 == d2))
    ∧ (∀ (k1 k2 : String) (t1 t2 d1 d2 : Option String) (df1 df2 : Option Rat),
      WorkflowParameter.pyEq (.datetimeParam k1 t1 d1 df1) (.datetimeParam k2 t2 d2 df2)
        = (k1 == k2 && t1 == t2 && d1 == d2)) :=
  ⟨fun _ _ _ _ _ _ _ _ _ _ => rfl, fun _ _ _ _ _ _ _ _ => rfl,
   fun _ _ _ _ _ _ _ _ _ _ _ _ => rfl, fun _ _ _ _ _ _ _ _ _ _ _ _ => rfl,
   fun _ _ _ _ _ _ _ _ => rfl⟩

/-- C9 counterexample: a wire `bool` is a non-number wire-scalar kind
(the wire taxonomy is {string, bool, number}), yet
`IntegerParameter.from_pb_value` ACCEPTS `True` and returns it unchanged —
Python `bool` is an `int` instance, so `isinstance(value, int)` succeeds —
refuting the claim that every wire value of non-numeric kind raises
`WrongFieldTypeException`. -/
theorem integer_from_pb_value_accepts_bool :
    IntegerParameter.from_pb_value (.vBool true) = .ok (.vBool true)
    ∧ (IntegerParameter.from_pb_value (.vBool true)).raisedWrongFieldType = false :=
  ⟨rfl, rfl⟩

/-- C9 (amended): `IntegerParameter.from_pb_value` rounds a wire float
(ties to even, so `1.5` yields `2`) and returns a wire int unchanged; a
wire bool is ALSO accepted and returned unchanged (Python `bool` is an
`int` instance); every remaining wire value kind — a string such as
`"abc"`, `None`, a list, a dict, a datetime — raises
`WrongFieldTypeException`. -/
theorem integerParameter_from_pb_value_behaviour :
    (∀ q : Rat, IntegerParameter.from_pb_value (.vFloat q) = .ok (.vInt (roundHalfEven q)))
    ∧ IntegerParameter.from_pb_value (.vFloat (mkRat 3 2)) = .ok (.vInt 2)
    ∧ (∀ n : Int, IntegerParameter.from_pb_value (.vInt n) = .ok (.vInt n))
    ∧ (∀ b : Bool, IntegerParameter.from_pb_value (.vBool b) = .ok (.vBool b))
    ∧ (IntegerParameter.from_pb_value (.vStr "abc")).raisedWrongFieldType = true
    ∧ (∀ s : String, (IntegerParameter.from_pb_value (.vStr s)).raisedWrongFieldType = true)
    ∧ (IntegerParameter.from_pb_value .vNone).raisedWrongFieldType = true
    ∧ (∀ xs : List PyValue, (IntegerParameter.from_pb_value (.vList xs)).raisedWrongFieldType
        = true)
    ∧ (∀ xs : List (String × PyValue),
        (IntegerParameter.from_pb_value (.vDict xs)).raisedWrongFieldType = true)
    ∧ (∀ ts : Rat, (IntegerParameter.from_pb_value (.vDatetime ts)).raisedWrongFieldType
        = true) := by
  refine ⟨fun q => rfl, ?_, fun n => rfl, fun b => rfl, rfl, fun s => rfl, rfl, fun xs => rfl,
    fun xs => rfl, fun ts => rfl⟩
  have h : roundHalfEven (mkRat 3 2) = 2 := by decide
  simp [IntegerParameter.from_pb_value, h]

/-! ## Claim C4 -/

/-- C4: `parse_workflow_config_parameter` applies exactly the documented
precedence: key present and type-compatible returns the converted value;
key present but type-incompatible returns the default when supplied and
raises `WrongFieldTypeException` otherwise; key absent returns the default
when supplied and raises `MissingFieldException` otherwise. -/
theorem parse_workflow_config_parameter_precedence
    (workflow_config : ParamsDict) (field_key : String) (expected_type : ParameterClass)
    (default_value : Option PyValue) :
    (∀ mv v, pyDictGet workflow_config field_key = some mv →
        expected_type.from_pb_value mv = .ok v →
        parse_workflow_config_parameter workflow_config field_key expected_type default_value
          = .ok v)
    ∧ (∀ mv m, pyDictGet workflow_config field_key = some mv →
        expected_type.from_pb_value mv = .error (.wrongFieldType m) →
        parse_workflow_config_parameter workflow_config field_key expected_type default_value
          = (match default_value with
             | some d => .ok d
             | none => .error (.wrongFieldType m)))
    ∧ (pyDictGet workflow_config field_key = none →
        parse_workflow_config_parameter workflow_config field_key expected_type default_value
          = (match default_value with
             | some d => .ok d
             | none => .error (.missingField ""))) := by
  refine ⟨?_, ?_, ?_⟩
  · intro mv v hget hconv
    simp [parse_workflow_config_parameter, hget, hconv]
  · intro mv m hget hconv
    cases default_value <;> simp [parse_workflow_config_parameter, hget, hconv]
  · intro hget
    cases default_value <;> simp [parse_workflow_config_parameter, hget]

theorem parse_workflow_config_parameter_precedence_witness :
    parse_workflow_config_parameter [("x", .vStr "wrong-kind")] "x" .IntegerParameter
      (some (.vInt 5)) = .ok (.vInt 5) :=
  (parse_workflow_config_parameter_precedence [("x", .vStr "wrong-kind")] "x"
      .IntegerParameter (some (.vInt 5))).2.1
    (.vStr "wrong-kind") (integerFromPbValueErrMsg (.vStr "wrong-kind")) rfl rfl

/-! ## Claim C5 -/

/-- C5 counterexample: `StringParameter.from_json_config` with a non-string
`default` raises `TypeError`, not `WrongFieldTypeException` as the claim
states. -/
theorem from_json_config_raises_TypeError_not_WrongFieldType :
    StringParameter.from_json_config [("key_name", .vStr "p"), ("default", .vInt 5)]
      = .error (.typeError "\x27default\x27 for StringParameter must be in \x27str\x27 format")
    ∧ (StringParameter.from_json_config [("key_name", .vStr "p"), ("default", .vInt 5)]).raisedWrongFieldType
      = false := by
  exact ⟨rfl, rfl⟩

/-- The field check of `from_json_config` passes for key `k` (key absent,
or present with a value satisfying the type predicate). -/
def fieldCheckPasses (cfg : List (String × PyValue)) (k : String) (pred : PyValue → Bool) :
    Bool :=
  match pyDictGet cfg k with
  | some v => pred v
  | none => true

theorem checkFieldType_ok (cfg : List (String × PyValue)) (k : String) (pred : PyValue → Bool)
    (msg : PyValue → String) (h : fieldCheckPasses cfg k pred = true) :
    checkFieldType cfg k pred msg = .ok () := by
  unfold fieldCheckPasses at h
  rcases hg : pyDictGet cfg k with _ | v
  · simp [checkFieldType, hg]
  · rw [hg] at h
    simp only [] at h
    simp [checkFieldType, hg, h]

theorem checkFieldType_error (cfg : List (String × PyValue)) (k : String)
    (pred : PyValue → Bool) (msg : PyValue → String) (v : PyValue)
    (hget : pyDictGet cfg k = some v) (hp : pred v = false) :
    checkFieldType cfg k pred msg = .error (.typeError (msg v)) := by
  simp [checkFieldType, hget, hp]

/-- C5 (amended): for every parameter variant, when a supplied field does
not match the variant's expected primitive type, `from_json_config` fails
with `TypeError` — not `WrongFieldTypeException` — and the message names
the offending field and the expected type/format: a non-string `default`
or non-list `enum_options` for String, a non-bool `default` for Boolean,
a non-int `default`/`minimum`/`maximum` for Integer, a non-float-non-int
`default`/`minimum`/`maximum` for Float, and a non-string `default` for
DateTime.  The checks run in source order, so the conjuncts for
later-checked fields assume the earlier checks passed. -/
theorem from_json_config_wrong_field_raises_TypeError :
    (∀ cfg v, pyDictGet cfg "default" = some v → isInstStr v = false →
      StringParameter.from_json_config cfg
        = .error (.typeError "\x27default\x27 for StringParameter must be in \x27str\x27 format"))
    ∧ (∀ cfg w, fieldCheckPasses cfg "default" isInstStr = true →
        pyDictGet cfg "enum_options" = some w → isInstList w = false →
        StringParameter.from_json_config cfg
          = .error (.typeError "\x27enum_options\x27 for StringParameter must be a \x27list\x27"))
    ∧ (∀ cfg v, pyDictGet cfg "default" = some v → isInstBool v = false →
        BooleanParameter.from_json_config cfg
          = .error (.typeError ("\x27default\x27 for BooleanParameter must be in \x27bool\x27 format: \x27"
              ++ pyStrValue v ++ "\x27")))
    ∧ (∀ cfg v, pyDictGet cfg "default" = some v → isInstInt v = false →
        IntegerParameter.from_json_config cfg
          = .error (.typeError (integerFromJsonErrMsg "default" v)))
    ∧ (∀ cfg v, fieldCheckPasses cfg "default" isInstInt = true →
        pyDictGet cfg "minimum" = some v → isInstInt v = false →
        IntegerParameter.from_json_config cfg
          = .error (.typeError (integerFromJsonErrMsg "minimum" v)))
    ∧ (∀ cfg v, fieldCheckPasses cfg "default" isInstInt = true →
        fieldCheckPasses cfg "minimum" isInstInt = true →
        pyDictGet cfg "maximum" = some v → isInstInt v = false →
        IntegerParameter.from_json_config cfg
          = .error (.typeError (integerFromJsonErrMsg "maximum" v)))
    ∧ (∀ cfg v, pyDictGet cfg "default" = some v → isFloatOrInt v = false →
        FloatParameter.from_json_config cfg
          = .error (.typeError (floatFromJsonErrMsg "default" v)))
    ∧ (∀ cfg v, fieldCheckPasses cfg "default" isFloatOrInt = true →
        pyDictGet cfg "minimum" = some v → isFloatOrInt v = false →
        FloatParameter.from_json_config cfg
          = .error (.typeError (floatFromJsonErrMsg "minimum" v)))
    ∧ (∀ cfg v, fieldCheckPasses cfg "default" isFloatOrInt = true →
        fieldCheckPasses cfg "minimum" isFloatOrInt = true →
        pyDictGet cfg "maximum" = some v → isFloatOrInt v = false →
        FloatParameter.from_json_config cfg
          = .error (.typeError (floatFromJsonErrMsg "maximum" v)))
    ∧ (∀ cfg v, pyDictGet cfg "default" = some v → isInstStr v = false →
        DateTimeParameter.from_json_config cfg
          = .error (.typeError
              ("Invalid default datetime format, should be a string in ISO format: \x27"
                ++ pyStrValue v ++ "\x27"))) := by
  refine ⟨?_, ?_, ?_, ?_, ?_, ?_, ?_, ?_, ?_, ?_⟩
  · intro cfg v hget hstr
    unfold StringParameter.from_json_config
    rw [checkFieldType_error cfg "default" isInstStr _ v hget hstr]
    rfl
  · intro cfg w hdef hget hlist
    unfold StringParameter.from_json_config
    rw [checkFieldType_ok cfg "default" isInstStr _ hdef,
      checkFieldType_error cfg "enum_options" isInstList _ w hget hlist]
    rfl
  · intro cfg v hget hbool
    unfold BooleanParameter.from_json_config
    rw [checkFieldType_error cfg "default" isInstBool _ v hget hbool]
    rfl
  · intro cfg v hget hint
    unfold IntegerParameter.from_json_config
    rw [checkFieldType_error cfg "default" isInstInt _ v hget hint]
    rfl
  · intro cfg v hdef hget hint
    unfold IntegerParameter.from_json_config
    rw [checkFieldType_ok cfg "default" isInstInt _ hdef,
      checkFieldType_error cfg "minimum" isInstInt _ v hget hint]
    rfl
  · intro cfg v hdef hmin hget hint
    unfold IntegerParameter.from_json_config
    rw [checkFieldType_ok cfg "default" isInstInt _ hdef,
      checkFieldType_ok cfg "minimum" isInstInt _ hmin,
      checkFieldType_error cfg "maximum" isInstInt _ v hget hint]
    rfl
  · intro cfg v hget hfl
    unfold FloatParameter.from_json_config
    rw [checkFieldType_error cfg "default" isFloatOrInt _ v hget hfl]
    rfl
  · intro cfg v hdef hget hfl
    unfold FloatParameter.from_json_config
    rw [checkFieldType_ok cfg "default" isFloatOrInt _ hdef,
      checkFieldType_error cfg "minimum" isFloatOrInt _ v hget hfl]
    rfl
  · intro cfg v hdef hmin hget hfl
    unfold FloatParameter.from_json_config
    rw [checkFieldType_ok cfg "default" isFloatOrInt _ hdef,
      checkFieldType_ok cfg "minimum" isFloatOrInt _ hmin,
      checkFieldType_error cfg "maximum" isFloatOrInt _ v hget hfl]
    rfl
  · intro cfg v hget hstr
    have hiso : datetime_fromisoformat v
        = .error (.typeError "fromisoformat: argument must be str") := by
      cases v <;> first | rfl | (exfalso; simp [isInstStr] at hstr)
    simp [DateTimeParameter.from_json_config, hget, hiso]

theorem from_json_config_wrong_field_raises_TypeError_witness :
    IntegerParameter.from_json_config [("key_name", .vStr "p"), ("minimum", .vFloat (mkRat 3 2))]
      = .error (.typeError (integerFromJsonErrMsg "minimum" (.vFloat (mkRat 3 2)))) :=
  from_json_config_wrong_field_raises_TypeError.2.2.2.2.1
    [("key_name", .vStr "p"), ("minimum", .vFloat (mkRat 3 2))] (.vFloat (mkRat 3 2))
    rfl rfl rfl

/-! ## Claim C10 -/

/-- `to_pb_value` only ever raises `WrongFieldTypeException`, never
`MissingFieldException`. -/
theorem to_pb_value_never_missingField (p : WorkflowParameter) (v : PyValue) :
    (p.to_pb_value v).raisedMissingField = false := by
  cases p <;> cases v <;> rfl

theorem convertParamsLoop_never_missingField (ps : List WorkflowParameter) :
    ∀ (pd : ParamsDict) (acc : List (String × PyValue)),
    (convertParamsLoop ps pd acc).raisedMissingField = false := by
  induction ps with
  | nil => intro pd acc; rfl
  | cons p rest ih =>
    intro pd acc
    unfold convertParamsLoop
    rcases hg : pyDictGet pd p.key_name with _ | v
    · rfl
    · by_cases hn : isVNone v = true
      · simp [hn]
        rfl
      · simp only [Bool.not_eq_true] at hn
        simp only [hn, Bool.false_eq_true, if_false]
        rcases hc : p.to_pb_value v with e | w
        · have := to_pb_value_never_missingField p v
          rw [hc] at this
          simpa using this
        · exact ih pd (dictSet acc p.key_name w)

/-- The parameter is supplied in the params dict with a convertible,
non-`None` value. -/
def paramSuppliedOk (pd : ParamsDict) (q : WorkflowParameter) : Prop :=
  ∃ v w, pyDictGet pd q.key_name = some v ∧ isVNone v = false ∧ q.to_pb_value v = .ok w

/-- `params_dict.get(parameter.key_name)` yields Python `None` (key absent
or mapped to `None`). -/
def paramLookupIsNone (pd : ParamsDict) (p : WorkflowParameter) : Bool :=
  match pyDictGet pd p.key_name with
  | none => true
  | some v => isVNone v

theorem convertParamsLoop_attributeError (pd : ParamsDict) :
    ∀ (pre : List WorkflowParameter) (p : WorkflowParameter)
      (post : List WorkflowParameter) (acc : List (String × PyValue)),
    (∀ q ∈ pre, paramSuppliedOk pd q) → paramLookupIsNone pd p = true →
    convertParamsLoop (pre ++ p :: post) pd acc = .error (.attributeError (attrKeyErrMsg p)) := by
  intro pre
  induction pre with
  | nil =>
    intro p post acc _ hmiss
    unfold paramLookupIsNone at hmiss
    rcases hg : pyDictGet pd p.key_name with _ | v
    · simp [convertParamsLoop, hg]
    · rw [hg] at hmiss
      simp only [] at hmiss
      simp [convertParamsLoop, hg, hmiss]
  | cons q pre ih =>
    intro p post acc hall hmiss
    obtain ⟨v, w, hg, hvn, hc⟩ := hall q (by simp)
    have hstep : convertParamsLoop ((q :: pre) ++ p :: post) pd acc
        = convertParamsLoop (pre ++ p :: post) pd (dictSet acc q.key_name w) := by
      simp [convertParamsLoop, hg, hvn, hc]
    rw [hstep]
    exact ih p post (dictSet acc q.key_name w) (fun r hr => hall r (by simp [hr])) hmiss

/-- C10: the missing-parameter branch of `convert_params_dict_to_struct`
raises `AttributeError` (reading the nonexistent attribute
`parameter.key`), so the documented `MissingFieldException` is never
raised by this function; and a workflow whose `workflow_parameters` is
`None` makes it raise `TypeError` by iterating `None`. -/
theorem convert_params_dict_to_struct_error_behaviour :
    (∀ (name desc : String) (pd : ParamsDict),
      convert_params_dict_to_struct ⟨name, desc, none⟩ pd
        = .error (.typeError "\x27NoneType\x27 object is not iterable"))
    ∧ (∀ (w : WorkflowType) (pd : ParamsDict),
      (convert_params_dict_to_struct w pd).raisedMissingField = false)
    ∧ (∀ (name desc : String) (pre : List WorkflowParameter) (p : WorkflowParameter)
        (post : List WorkflowParameter) (pd : ParamsDict),
      (∀ q ∈ pre, paramSuppliedOk pd q) → paramLookupIsNone pd p = true →
      convert_params_dict_to_struct ⟨name, desc, some (pre ++ p :: post)⟩ pd
        = .error (.attributeError (attrKeyErrMsg p))) := by
  refine ⟨fun name desc pd => rfl, ?_, ?_⟩
  · intro w pd
    rcases hw : w.workflow_parameters with _ | ps
    · simp [convert_params_dict_to_struct, hw, Except.raisedMissingField, PyErr.isMissingField]
    · rcases hl : convertParamsLoop ps pd [] with e | nd
      · have h2 := convertParamsLoop_never_missingField ps pd []
        rw [hl] at h2
        simp only [convert_params_dict_to_struct, hw, hl]
        simpa [Except.raisedMissingField] using h2
      · simp [convert_params_dict_to_struct, hw, hl, Except.raisedMissingField]
  · intro name desc pre p post pd hall hmiss
    have hloop := convertParamsLoop_attributeError pd pre p post [] hall hmiss
    simp [convert_params_dict_to_struct, hloop]

theorem convert_params_dict_to_struct_error_behaviour_witness :
    convert_params_dict_to_struct
        ⟨"wf", "WF", some [WorkflowParameter.stringParam "x" none none none none]⟩ []
      = .error (.attributeError (attrKeyErrMsg (.stringParam "x" none none none none))) :=
  convert_params_dict_to_struct_error_behaviour.2.2 "wf" "WF" []
    (.stringParam "x" none none none none) [] [] (fun q hq => absurd hq (List.not_mem_nil q))
    rfl

/-! ## Claims C1, C2, C3 -/

/-- C1 (code bug): `cancel_job` calls
`OmotesQueueNames.job_cancel_queue_name(job)` with one positional argument
although the static method takes none, so every call raises `TypeError`
and no `JobCancel` message is ever published to `job_cancellations`. -/
theorem cancel_job_raises_TypeError (job : Job) :
    OmotesInterface.cancel_job job
      = .error (.typeError
          "job_cancel_queue_name() takes 0 positional arguments but 1 was given") := rfl

/-- C2 (code bug): the `JobSubmission` message published by `submit_job`
carries only the uuid, timeout, workflow type name and esdl — the
`job_config` mapping is never encoded, so the `params_dict`/parameters
field of the wire message stays unset no matter what `job_config` is. -/
theorem submit_job_publishes_submission_without_parameters
    (generated_job_id esdl : String) (job_config : ParamsDict)
    (workflow_type : WorkflowType) (timeout_ms : Option Int)
    (callback_on_progress_update callback_on_status_update auto_disconnect_on_result : Bool) :
    (OmotesInterface.submit_job generated_job_id esdl job_config workflow_type timeout_ms
        callback_on_progress_update callback_on_status_update auto_disconnect_on_result).2.getLast?
      = some (.sendMessageTo (OmotesQueueNames.job_submission_queue_name workflow_type)
          (.jobSubmission
            { uuid := generated_job_id
              timeout_ms := timeout_ms
              workflow_type := workflow_type.workflow_type_name
              esdl := esdl
              params_dict := none })) := by
  simp [OmotesInterface.submit_job, List.getLast?_concat]

/-- C3: with progress and status callbacks supplied, `submit_job`
establishes the result, progress and status subscriptions — in that order
— strictly before the only publish action, which sends the submission
message to the workflow submission queue. -/
theorem submit_job_subscribes_before_publishing
    (generated_job_id esdl : String) (job_config : ParamsDict)
    (workflow_type : WorkflowType) (timeout_ms : Option Int)
    (auto_disconnect_on_result : Bool) :
    (((OmotesInterface.submit_job generated_job_id esdl job_config workflow_type timeout_ms
          true true auto_disconnect_on_result).2.filter
        (fun x => x.isSubscribe)).map (fun x => x.queue_name)
      = [OmotesQueueNames.job_results_queue_name ⟨generated_job_id, workflow_type⟩,
         OmotesQueueNames.job_progress_queue_name ⟨generated_job_id, workflow_type⟩,
         OmotesQueueNames.job_status_queue_name ⟨generated_job_id, workflow_type⟩])
    ∧ ∀ (i j : Nat)
        (hi : i < (OmotesInterface.submit_job generated_job_id esdl job_config workflow_type
          timeout_ms true true auto_disconnect_on_result).2.length)
        (hj : j < (OmotesInterface.submit_job generated_job_id esdl job_config workflow_type
          timeout_ms true true auto_disconnect_on_result).2.length),
        ((OmotesInterface.submit_job generated_job_id esdl job_config workflow_type timeout_ms
            true true auto_disconnect_on_result).2.get ⟨i, hi⟩).isPublish = true →
        ((OmotesInterface.submit_job generated_job_id esdl job_config workflow_type timeout_ms
            true true auto_disconnect_on_result).2.get ⟨j, hj⟩).isSubscribe = true →
        j < i := by
  constructor
  · rfl
  · intro i j hi hj hp hs
    have hi4 : i < 4 := hi
    have hj4 : j < 4 := hj
    interval_cases i <;> interval_cases j <;>
      first
        | omega
        | exact absurd hp Bool.false_ne_true
        | exact absurd hs Bool.false_ne_true

theorem submit_job_subscribes_before_publishing_witness :
    (((OmotesInterface.submit_job "job-1" "<esdl/>" [] ⟨"wf1", "WF", none⟩ none
          true true false).2.filter
        (fun x => x.isSubscribe)).map (fun x => x.queue_name)
      = [OmotesQueueNames.job_results_queue_name ⟨"job-1", ⟨"wf1", "WF", none⟩⟩,
         OmotesQueueNames.job_progress_queue_name ⟨"job-1", ⟨"wf1", "WF", none⟩⟩,
         OmotesQueueNames.job_status_queue_name ⟨"job-1", ⟨"wf1", "WF", none⟩⟩])
    ∧ (0 : Nat) < 3 :=
  ⟨(submit_job_subscribes_before_publishing "job-1" "<esdl/>" [] ⟨"wf1", "WF", none⟩ none
      false).1,
   (submit_job_subscribes_before_publishing "job-1" "<esdl/>" [] ⟨"wf1", "WF", none⟩ none
      false).2 3 0 (by decide) (by decide) (by decide) (by decide)⟩

/-! ## Claim C7: round trip of the wire catalog -/

/-- The keys of a modelled Python dict. -/
def dictKeys (d : List (String × α)) : List String :=
  d.map (·.1)

theorem dictSet_dictKeys (d : List (String × α)) (k : String) (v : α) :
    dictKeys (dictSet d k v)
      = if d.any (fun p => p.1 == k) then dictKeys d else dictKeys d ++ [k] := by
  unfold dictSet dictKeys
  by_cases h : d.any (fun p => p.1 == k) = true
  · rw [if_pos h, if_pos h, List.map_map]
    refine List.map_congr_left ?_
    intro p _
    by_cases hp : (p.1 == k) = true
    · simp only [Function.comp_apply, hp, if_true]
      exact (eq_of_beq hp).symm
    · have hne : ¬(p.1 = k) := fun he => hp (by simp [he])
      simp [hne]
  · rw [if_neg h, if_neg h, List.map_append]
    rfl

theorem dictKeys_nodup_dictSet (d : List (String × α)) (k : String) (v : α)
    (h : (dictKeys d).Nodup) : (dictKeys (dictSet d k v)).Nodup := by
  rw [dictSet_dictKeys]
  by_cases hc : d.any (fun p => p.1 == k) = true
  · rw [if_pos hc]; exact h
  · rw [if_neg hc]
    have hk : k ∉ dictKeys d := by
      intro hmem
      obtain ⟨p, hp, hfst⟩ := List.mem_map.mp hmem
      exact hc (List.any_eq_true.mpr ⟨p, hp, by simp [hfst]⟩)
    simp [List.nodup_append, h, hk]

theorem dictSet_forall {P : String × α → Prop} {d : List (String × α)} {k : String} {v : α}
    (h : ∀ p ∈ d, P p) (hkv : P (k, v)) : ∀ p ∈ dictSet d k v, P p := by
  intro p hp
  unfold dictSet at hp
  by_cases hc : d.any (fun q => q.1 == k) = true
  · rw [if_pos hc] at hp
    obtain ⟨q, hq, rfl⟩ := List.mem_map.mp hp
    by_cases hqk : (q.1 == k) = true
    · simpa [hqk] using hkv
    · simpa [hqk] using h q hq
  · rw [if_neg hc] at hp
    rcases List.mem_append.mp hp with hl | hr
    · exact h p hl
    · rwa [List.mem_singleton.mp hr]

theorem make_fold_invariant (ws : List WorkflowType) :
    ∀ acc : List (String × WorkflowType),
      (dictKeys acc).Nodup → (∀ p ∈ acc, p.1 = p.2.workflow_type_name) →
      (dictKeys (ws.foldl (fun d w => dictSet d w.workflow_type_name w) acc)).Nodup
      ∧ ∀ p ∈ ws.foldl (fun d w => dictSet d w.workflow_type_name w) acc,
          p.1 = p.2.workflow_type_name := by
  induction ws with
  | nil => intro acc h1 h2; exact ⟨h1, h2⟩
  | cons w rest ih =>
    intro acc h1 h2
    rw [List.foldl_cons]
    exact ih _ (dictKeys_nodup_dictSet _ _ _ h1) (dictSet_forall h2 rfl)

theorem make_nodup_and_coherent (ws : List WorkflowType) :
    (dictKeys (WorkflowTypeManager.make ws)._workflows).Nodup
    ∧ ∀ p ∈ (WorkflowTypeManager.make ws)._workflows, p.1 = p.2.workflow_type_name :=
  make_fold_invariant ws [] (by simp [dictKeys]) (by simp)

theorem get_all_names_eq_keys (m : WorkflowTypeManager)
    (h : ∀ p ∈ m._workflows, p.1 = p.2.workflow_type_name) :
    m.get_all_workflows.map (·.workflow_type_name) = dictKeys m._workflows := by
  unfold WorkflowTypeManager.get_all_workflows dictKeys
  rw [List.map_map]
  exact List.map_congr_left (fun p hp => (h p hp).symm)

theorem make_eq_of_nodup (ws : List WorkflowType)
    (h : (ws.map (·.workflow_type_name)).Nodup) :
    (WorkflowTypeManager.make ws)._workflows
      = ws.map (fun w => (w.workflow_type_name, w)) := by
  suffices aux : ∀ acc : List (String × WorkflowType),
      (dictKeys acc ++ ws.map (·.workflow_type_name)).Nodup →
      ws.foldl (fun d w => dictSet d w.workflow_type_name w) acc
        = acc ++ ws.map (fun w => (w.workflow_type_name, w)) by
    simpa [WorkflowTypeManager.make, dictKeys] using
      aux [] (by simpa [dictKeys] using h)
  clear h
  induction ws with
  | nil => intro acc _; simp
  | cons w rest ih =>
    intro acc hnd
    have hw : acc.any (fun p => p.1 == w.workflow_type_name) = false := by
      rw [List.any_eq_false]
      intro p hp
      have hdisj := List.disjoint_of_nodup_append hnd
      have hk : p.1 ∈ dictKeys acc := List.mem_map.mpr ⟨p, hp, rfl⟩
      have hnot : p.1 ∉ (w :: rest).map (·.workflow_type_name) := hdisj hk
      simp only [List.map_cons, List.mem_cons, not_or] at hnot
      simpa using fun hbeq => hnot.1 (eq_of_beq hbeq)
    have hset : dictSet acc w.workflow_type_name w
        = acc ++ [(w.workflow_type_name, w)] := by
      simp [dictSet, hw]
    rw [List.foldl_cons, hset, ih (acc ++ [(w.workflow_type_name, w)]) ?_]
    · simp
    · have : dictKeys (acc ++ [(w.workflow_type_name, w)])
          = dictKeys acc ++ [w.workflow_type_name] := by
        simp [dictKeys]
      rw [this, List.append_assoc]
      simpa using hnd

theorem get_all_make_of_nodup (vs : List WorkflowType)
    (h : (vs.map (·.workflow_type_name)).Nodup) :
    (WorkflowTypeManager.make vs).get_all_workflows = vs := by
  unfold WorkflowTypeManager.get_all_workflows
  rw [make_eq_of_nodup vs h, List.map_map]
  have hcomp : ((fun x : String × WorkflowType => x.2) ∘ fun w : WorkflowType =>
      (w.workflow_type_name, w)) = id := rfl
  rw [hcomp, List.map_id]

theorem parameterFromPb_paramToPb (p : WorkflowParameter) :
    ∃ p2, parameterFromPb (paramToWorkflowParameterPb p) = .ok p2
      ∧ p2.key_name = p.key_name := by
  cases p with
  | stringParam k t d df eo =>
    cases eo with
    | none => exact ⟨_, rfl, rfl⟩
    | some opts =>
      have hto : ∃ sp, (WorkflowParameter.stringParam k t d df (some opts)).to_pb_message
          = .string_parameter sp := by
        unfold WorkflowParameter.to_pb_message
        by_cases he : opts.isEmpty = true <;> simp [he]
      obtain ⟨sp, hsp⟩ := hto
      refine ⟨StringParameter.from_pb_message
          (paramToWorkflowParameterPb (.stringParam k t d df (some opts))) sp, ?_, rfl⟩
      simp [parameterFromPb, paramToWorkflowParameterPb, hsp]
  | booleanParam k t d df => exact ⟨_, rfl, rfl⟩
  | integerParam k t d df mn mx => exact ⟨_, rfl, rfl⟩
  | floatParam k t d df mn mx => exact ⟨_, rfl, rfl⟩
  | datetimeParam k t d df => exact ⟨_, rfl, rfl⟩

theorem parametersFromPb_map (ps : List WorkflowParameter) :
    ∃ qs, parametersFromPb (ps.map paramToWorkflowParameterPb) = .ok qs
      ∧ qs.map WorkflowParameter.key_name = ps.map WorkflowParameter.key_name := by
  induction ps with
  | nil => exact ⟨[], rfl, rfl⟩
  | cons p rest ih =>
    obtain ⟨p2, hp, hk⟩ := parameterFromPb_paramToPb p
    obtain ⟨qs, hqs, hks⟩ := ih
    refine ⟨p2 :: qs, ?_, ?_⟩
    · simp [parametersFromPb, hp, hqs]
    · simp [hk, hks]

theorem workflowFromPb_toPb (w : WorkflowType) :
    ∃ w2, workflowFromPb (workflowToPb w) = .ok w2
      ∧ w2.workflow_type_name = w.workflow_type_name
      ∧ wtKeyNames w2 = wtKeyNames w := by
  rcases hwp : w.workflow_parameters with _ | ps
  · refine ⟨⟨w.workflow_type_name, w.workflow_type_description_name, some []⟩, ?_, rfl, ?_⟩
    · simp [workflowToPb, hwp, workflowFromPb, parametersFromPb]
    · simp [wtKeyNames, hwp]
  · by_cases he : ps.isEmpty = true
    · have hps : ps = [] := by simpa using he
      subst hps
      refine ⟨⟨w.workflow_type_name, w.workflow_type_description_name, some []⟩, ?_, rfl, ?_⟩
      · simp [workflowToPb, hwp, workflowFromPb, parametersFromPb]
      · simp [wtKeyNames, hwp]
    · obtain ⟨qs, hqs, hks⟩ := parametersFromPb_map ps
      refine ⟨⟨w.workflow_type_name, w.workflow_type_description_name, some qs⟩, ?_, rfl, ?_⟩
      · simp [workflowToPb, hwp, he, workflowFromPb, hqs]
      · simp [wtKeyNames, hwp, hks]

theorem workflowsFromPb_map (ws : List WorkflowType) :
    ∃ vs, workflowsFromPb (ws.map workflowToPb) = .ok vs
      ∧ vs.map (·.workflow_type_name) = ws.map (·.workflow_type_name)
      ∧ vs.map wtKeyNames = ws.map wtKeyNames := by
  induction ws with
  | nil => exact ⟨[], rfl, rfl, rfl⟩
  | cons w rest ih =>
    obtain ⟨w2, hw, hname, hkeys⟩ := workflowFromPb_toPb w
    obtain ⟨vs, hvs, hvnames, hvkeys⟩ := ih
    refine ⟨w2 :: vs, ?_, ?_, ?_⟩
    · simp [workflowsFromPb, hw, hvs]
    · simp [hname, hvnames]
    · simp [hkeys, hvkeys]

/-- C7: serializing a `WorkflowTypeManager` with `to_pb_message` and
reconstructing with `from_pb_message` succeeds and yields a registry with
the same number of workflows, the same `workflow_type_name` values (even
in the same order), and, per workflow, the same ordered sequence of
parameter `key_name` values. -/
theorem workflowTypeManager_pb_roundtrip (possible_workflows : List WorkflowType) :
    ∃ m2 : WorkflowTypeManager,
      WorkflowTypeManager.from_pb_message
          (WorkflowTypeManager.to_pb_message (WorkflowTypeManager.make possible_workflows))
        = .ok m2
      ∧ m2.get_all_workflows.length
          = (WorkflowTypeManager.make possible_workflows).get_all_workflows.length
      ∧ m2.get_all_workflows.map (·.workflow_type_name)
          = (WorkflowTypeManager.make possible_workflows).get_all_workflows.map
              (·.workflow_type_name)
      ∧ m2.get_all_workflows.map wtKeyNames
          = (WorkflowTypeManager.make possible_workflows).get_all_workflows.map wtKeyNames := by
  obtain ⟨hnd, hcoh⟩ := make_nodup_and_coherent possible_workflows
  have hnames : (WorkflowTypeManager.make possible_workflows).get_all_workflows.map
        (·.workflow_type_name)
      = dictKeys (WorkflowTypeManager.make possible_workflows)._workflows :=
    get_all_names_eq_keys _ hcoh
  have hvalnodup : ((WorkflowTypeManager.make possible_workflows).get_all_workflows.map
      (·.workflow_type_name)).Nodup := by
    rw [hnames]; exact hnd
  obtain ⟨vs, hvs, hvnames, hvkeys⟩ :=
    workflowsFromPb_map (WorkflowTypeManager.make possible_workflows).get_all_workflows
  have hvsnodup : (vs.map (·.workflow_type_name)).Nodup := by
    rw [hvnames]; exact hvalnodup
  refine ⟨WorkflowTypeManager.make vs, ?_, ?_, ?_, ?_⟩
  · simp [WorkflowTypeManager.to_pb_message, WorkflowTypeManager.from_pb_message, hvs]
  · rw [get_all_make_of_nodup vs hvsnodup]
    simpa using congrArg List.length hvnames
  · rw [get_all_make_of_nodup vs hvsnodup]
    exact hvnames
  · rw [get_all_make_of_nodup vs hvsnodup]
    exact hvkeys
